import Mathlib

/-!
Verification of the call-resolution and chaining mechanism of the blacktie
pipeline driver, against a shallow embedding of
src/src/blacktie/utils/calls.py (Python 2).

Conventions of the embedding:
  - Python values that can appear in an option map are modelled by PyVal
    (booleans, strings, integers); Python str() is PyVal.str.
  - The YAML configuration marks an option as dynamic with the literal
    string sentinel "from_conditions"; the embedding keeps that sentinel
    as a PyVal (fromConditions below), exactly as the source compares
    option == "from_conditions".
  - CPython 2 dicts are unordered hash tables with a deterministic but
    unspecified iteration order; the embedding models the option dict as
    an insertion-ordered association list, which matches the YAML
    declaration order assumed throughout the spec.
  - Filesystem state is passed in as an existence predicate, and
    filesystem writes are reified as an explicit effect list.
-/

namespace Blacktie

/-- A Python value as it can appear in a stage's option map: a boolean,
a string, or an integer. -/
inductive PyVal where
  | vBool : Bool → PyVal
  | vStr : String → PyVal
  | vInt : Int → PyVal
deriving DecidableEq

/-- Python str() on a PyVal: True/False for booleans, the text itself for
strings, decimal rendering for integers. -/
def PyVal.str : PyVal → String
  | PyVal.vBool true => "True"
  | PyVal.vBool false => "False"
  | PyVal.vStr s => s
  | PyVal.vInt n => toString n

/-- Python identity test x is False: only the boolean False object passes. -/
def PyVal.isFalse : PyVal → Bool
  | PyVal.vBool false => true
  | _ => false

/-- The sentinel the YAML configuration uses to mark an option as
dynamically resolved; the source compares option == "from_conditions". -/
def fromConditions : PyVal := PyVal.vStr "from_conditions"

/-- Python s.rstrip(slash): remove every trailing slash character. -/
def rstripSlash (s : String) : String :=
  String.mk (List.reverse (List.dropWhile (fun c => c = '/') (List.reverse s.data)))

/-- Models BaseCall.construct_options_list (calls.py lines 171-192):
walk the option map; skip entries whose value is the boolean False object;
emit a single-dash flag for one-character names and a double-dash flag
otherwise; append the stringified value as its own token unless that
stringification equals the text True. -/
def construct_options_list : List (String × PyVal) → List String
  | [] => []
  | (opt, v) :: rest =>
    if PyVal.isFalse v then
      construct_options_list rest
    else
      let flag := if opt.length = 1 then "-" ++ opt else "--" ++ opt
      let opt_val_str := PyVal.str v
      if opt_val_str ≠ "True" then
        flag :: opt_val_str :: construct_options_list rest
      else
        flag :: construct_options_list rest

/-- Follows the spec's words for claim C2, as amended: an option whose
value is the boolean False emits nothing; single-character option names
get a single-dash prefix and longer names a double-dash prefix; an
option whose stringified value equals the text True (in particular the
boolean True) emits only its flag; every other option emits its flag
followed by its stringified value as a separate token. -/
def option_tokens_spec (opt : String) (v : PyVal) : List String :=
  if v = PyVal.vBool false then []
  else
    let flag := if opt.length = 1 then "-" ++ opt else "--" ++ opt
    if PyVal.str v = "True" then [flag] else [flag, PyVal.str v]

/-- Models the arg_str assembly shared by all four call classes
(for example calls.py lines 361-368): the positional tokens are appended
after the already-serialized option tokens and the result is joined with
single spaces. -/
def build_arg_str (options_list positionals : List String) : String :=
  String.intercalate " " (options_list ++ positionals)

lemma isFalse_eq_true_iff (v : PyVal) : PyVal.isFalse v = true ↔ v = PyVal.vBool false := by
  cases v with
  | vBool b => cases b <;> simp [PyVal.isFalse]
  | vStr s => simp [PyVal.isFalse]
  | vInt n => simp [PyVal.isFalse]

lemma construct_options_list_eq_spec (d : List (String × PyVal)) :
    construct_options_list d = List.flatten (d.map (fun kv => option_tokens_spec kv.1 kv.2)) := by
  induction d with
  | nil => simp [construct_options_list]
  | cons kv rest ih =>
    obtain ⟨opt, v⟩ := kv
    match v with
    | PyVal.vBool false =>
      simp [construct_options_list, option_tokens_spec, PyVal.isFalse, ih]
    | PyVal.vBool true =>
      simp [construct_options_list, option_tokens_spec, PyVal.isFalse, PyVal.str, ih]
    | PyVal.vStr s =>
      by_cases ht : PyVal.str (PyVal.vStr s) = "True"
      · simp [construct_options_list, option_tokens_spec, PyVal.isFalse, ht, ih]
      · simp [construct_options_list, option_tokens_spec, PyVal.isFalse, ht, ih]
    | PyVal.vInt n =>
      by_cases ht : PyVal.str (PyVal.vInt n) = "True"
      · simp [construct_options_list, option_tokens_spec, PyVal.isFalse, ht, ih]
      · simp [construct_options_list, option_tokens_spec, PyVal.isFalse, ht, ih]

/-- Claim C2 (corrected), counterexample to the original wording: the
option value consisting of the string True is neither the boolean True
nor the boolean False, yet serialization emits only the flag token and
drops the value token the claim promises. -/
theorem C2_counterexample :
    construct_options_list [("x", PyVal.vStr "True")] = ["-x"]
    ∧ PyVal.vStr "True" ≠ PyVal.vBool true
    ∧ PyVal.isFalse (PyVal.vStr "True") = false
    ∧ construct_options_list [("x", PyVal.vStr "True")] ≠ ["-x", "True"] := by
  refine ⟨by decide, by decide, by decide, by decide⟩

/-- Claim C2 (amended): option-map serialization emits, per entry in
order, nothing for a boolean-False value, a single-dash flag for
one-character names and a double-dash flag for longer names, only the
flag when the stringified value equals the text True (which covers
boolean True), and otherwise the flag followed by the stringified value
as a separate token; and the final argument string is the serialized
flag tokens followed by all positional tokens, space-joined, so every
flag token precedes every positional token. -/
theorem C2_options_serialization :
    (∀ d : List (String × PyVal),
      construct_options_list d = List.flatten (d.map (fun kv => option_tokens_spec kv.1 kv.2)))
    ∧ (∀ (d : List (String × PyVal)) (pos : List String),
      build_arg_str (construct_options_list d) pos
        = String.intercalate " "
            (List.flatten (d.map (fun kv => option_tokens_spec kv.1 kv.2)) ++ pos)) := by
  constructor
  · exact construct_options_list_eq_spec
  · intro d pos
    rw [build_arg_str, construct_options_list_eq_spec]

lemma string_append_left_cancel {s a b : String} (h : s ++ a = s ++ b) : a = b := by
  apply String.ext
  have hd := congrArg String.data h
  simp only [String.data_append] at hd
  exact List.append_cancel_left hd

/-- One experimental condition record from the YAML condition queue.
The source reads these keys from a plain dict; the key spelled
gtf_annotation in the YAML is shortened to gtf_anno here. -/
structure Condition where
  name : String
  left_reads : List String
  right_reads : List String
  gtf_anno : String
  genome_seq : String
  mask_file : String
  bowtie2_index : String
deriving DecidableEq

/-- Models BaseCall.set_call_id (calls.py lines 90-107) for a per-sample
call, whose conditions argument is a single condition dict: the call id
joins the program name to the condition name with an underscore. -/
def set_call_id_single (prog_name condition_name : String) : String :=
  prog_name ++ "_" ++ condition_name

/-- Models BaseCall.set_call_id (calls.py lines 90-107) for a group call,
whose conditions argument is a group key: the call id joins the program
name to the dot-joined names of the group's conditions. -/
def set_call_id_group (prog_name : String) (condition_names : List String) : String :=
  prog_name ++ "_" ++ String.intercalate "." condition_names

/-- Models BaseCall.build_out_dir_path (calls.py lines 135-144). -/
def build_out_dir_path (base_dir call_id : String) : String :=
  rstripSlash base_dir ++ "/" ++ call_id

/-- Models the get_out_dir method shared verbatim by all four call classes
(for example TophatCall.get_out_dir, calls.py lines 370-375): a literal
configured path is used unchanged, while the dynamic sentinel resolves to
the base directory joined with the call id. -/
def get_out_dir (option : PyVal) (base_dir call_id : String) : PyVal :=
  if option = fromConditions then PyVal.vStr (build_out_dir_path base_dir call_id)
  else option

/-- Claim C7: every call id has the form stage-name, underscore, then the
condition name (per-sample calls) or the dot-joined condition names of the
group (group calls); for a fixed stage the id determines that name, so ids
are unique per stage and condition or group; and the output directory is
the configured base directory (trailing slashes stripped) joined with the
call id when the option is marked dynamic, or the literal configured value
unchanged otherwise. -/
theorem C7_call_id_and_out_dir (p n1 n2 : String) (ns1 ns2 : List String)
    (base : String) (ov : PyVal) :
    (set_call_id_single p n1 = p ++ "_" ++ n1)
    ∧ (set_call_id_group p ns1 = p ++ "_" ++ String.intercalate "." ns1)
    ∧ (set_call_id_single p n1 = set_call_id_single p n2 ↔ n1 = n2)
    ∧ (set_call_id_group p ns1 = set_call_id_group p ns2
        ↔ String.intercalate "." ns1 = String.intercalate "." ns2)
    ∧ (ov = fromConditions →
        get_out_dir ov base (set_call_id_single p n1)
          = PyVal.vStr (rstripSlash base ++ "/" ++ set_call_id_single p n1))
    ∧ (ov ≠ fromConditions → get_out_dir ov base (set_call_id_single p n1) = ov) := by
  refine ⟨rfl, rfl, ?_, ?_, ?_, ?_⟩
  · constructor
    · intro h
      exact string_append_left_cancel (string_append_left_cancel
        (by simpa [set_call_id_single, String.append_assoc] using h))
    · intro h
      rw [set_call_id_single, set_call_id_single, h]
  · constructor
    · intro h
      exact string_append_left_cancel (string_append_left_cancel
        (by simpa [set_call_id_group, String.append_assoc] using h))
    · intro h
      rw [set_call_id_group, set_call_id_group, h]
  · intro h
    simp [get_out_dir, h, build_out_dir_path]
  · intro h
    simp [get_out_dir, h]

/-- Witness for C7 at concrete inputs: a dynamic marker resolves the
output directory under the base directory, and a literal path passes
through unchanged. -/
theorem C7_witness :
    PyVal.vStr "/lit" ≠ fromConditions
    ∧ get_out_dir fromConditions "/my/base/" (set_call_id_single "tophat" "Aa0")
        = PyVal.vStr (rstripSlash "/my/base/" ++ "/" ++ set_call_id_single "tophat" "Aa0")
    ∧ get_out_dir (PyVal.vStr "/lit") "/my/base/" (set_call_id_single "tophat" "Aa0")
        = PyVal.vStr "/lit" :=
  ⟨by decide,
   (C7_call_id_and_out_dir "tophat" "Aa0" "Bb0" [] [] "/my/base/" fromConditions).2.2.2.2.1 rfl,
   (C7_call_id_and_out_dir "tophat" "Aa0" "Bb0" [] [] "/my/base/"
     (PyVal.vStr "/lit")).2.2.2.2.2 (by decide)⟩

/-- A Call Record as downstream stages see it: the registered call object,
of which only the out_dir attribute is read. out_dir is optional so that a
registered object lacking the attribute (Python AttributeError) is
representable. -/
structure CallRecord where
  out_dir : Option String
deriving DecidableEq

/-- Python dict lookup in yargs.call_records: the first binding of the
key, if any (KeyError otherwise). -/
def lookup_record (records : List (String × CallRecord)) (id : String) :
    Option CallRecord :=
  (records.find? (fun kv => kv.1 = id)).map Prod.snd

/-- How a dynamically resolved upstream path was obtained: from the Call
Record Store, from the on-disk convention (with a logged warning), kept
as the nonexistent conventional guess in a tolerant mode, or failed with
a MissingArgumentError message. -/
inductive PathResult where
  | viaRecord : String → PathResult
  | viaDisk : String → PathResult
  | viaGuess : String → PathResult
  | missingError : String → PathResult
deriving DecidableEq

/-- The execution mode selector: mode is one of analyze (normal
execution), dry_run, or qsub_script (batch-script generation). -/
inductive Mode where
  | analyze
  | dry_run
  | qsub_script
deriving DecidableEq

/-- The MissingArgumentError message text of the fallback methods
(for example calls.py lines 503-504). -/
def missing_msg (filename path : String) : String :=
  "I could not find an appropriate " ++ filename ++ " file. Failed to find: " ++ path

/-- Models the upstream-path fallback pattern shared verbatim by
CufflinksCall.get_bam_path (calls.py lines 486-509),
CuffmergeCall.get_cuffGTF_path (lines 621-644),
CuffdiffCall.get_bam_path (lines 744-768) and
CuffdiffCall.get_cuffmerge_gtf (lines 797-820): try the Call Record
Store (KeyError or AttributeError falls through), otherwise reconstruct
the conventional path under the base directory and check the disk; a
missing file is fatal only in analyze mode. -/
def get_upstream_path (records : List (String × CallRecord))
    (upstream_id filename base_dir : String) (mode : Mode)
    (fs_exists : String → Bool) : PathResult :=
  match (lookup_record records upstream_id).bind CallRecord.out_dir with
  | some d => PathResult.viaRecord (rstripSlash d ++ "/" ++ filename)
  | none =>
    let guess := rstripSlash base_dir ++ "/" ++ upstream_id ++ "/" ++ filename
    if fs_exists guess then PathResult.viaDisk guess
    else if mode = Mode.analyze then PathResult.missingError (missing_msg filename guess)
    else PathResult.viaGuess guess

/-- Models CufflinksCall.get_bam_path (calls.py lines 486-509). -/
def cufflinks_get_bam_path (records : List (String × CallRecord))
    (base_dir : String) (mode : Mode) (fs_exists : String → Bool)
    (cond_name : String) : PathResult :=
  get_upstream_path records ("tophat_" ++ cond_name) "accepted_hits.bam"
    base_dir mode fs_exists

/-- Models CuffmergeCall.get_cuffGTF_path (calls.py lines 621-644). -/
def cuffmerge_get_cuffGTF_path (records : List (String × CallRecord))
    (base_dir : String) (mode : Mode) (fs_exists : String → Bool)
    (cond_name : String) : PathResult :=
  get_upstream_path records ("cufflinks_" ++ cond_name) "transcripts.gtf"
    base_dir mode fs_exists

/-- Models CuffdiffCall.get_bam_path (calls.py lines 744-768). -/
def cuffdiff_get_bam_path (records : List (String × CallRecord))
    (base_dir : String) (mode : Mode) (fs_exists : String → Bool)
    (cond_name : String) : PathResult :=
  get_upstream_path records ("tophat_" ++ cond_name) "accepted_hits.bam"
    base_dir mode fs_exists

/-- Structural worker for str_replace; the counter says how many
characters of a just-matched occurrence remain to be consumed before
matching may resume. -/
def listReplaceAux (pat rep : List Char) : Nat → List Char → List Char
  | _, [] => []
  | Nat.succ k, _ :: rest => listReplaceAux pat rep k rest
  | 0, c :: rest =>
    if pat.isPrefixOf (c :: rest) && !pat.isEmpty then
      rep ++ listReplaceAux pat rep (pat.length - 1) rest
    else
      c :: listReplaceAux pat rep 0 rest

/-- Python str.replace(old, new): replace every non-overlapping occurrence
of old, scanning left to right. The source only calls this with the
nonempty literal pattern cuffdiff (calls.py line 798). -/
def str_replace (s pat rep : String) : String :=
  String.mk (listReplaceAux pat.data rep.data 0 s.data)

/-- Models CuffdiffCall.get_cuffmerge_gtf (calls.py lines 797-820): the
matching cuffmerge id is obtained by replacing cuffdiff with cuffmerge
inside the cuffdiff call's own id, then the shared record-store/disk
fallback locates merged.gtf. -/
def cuffdiff_get_cuffmerge_gtf (records : List (String × CallRecord))
    (base_dir : String) (mode : Mode) (fs_exists : String → Bool)
    (call_id : String) : PathResult :=
  get_upstream_path records (str_replace call_id "cuffdiff" "cuffmerge")
    "merged.gtf" base_dir mode fs_exists

/-- Claim C3: whenever the matching upstream Call Record is present in the
store and exposes an output directory, each downstream stage resolves its
dynamic file argument to that record's output directory (trailing slashes
stripped) joined with the known output filename, and the result is
produced by the record branch, never by the disk-convention fallback. -/
theorem C3_record_lookup_short_circuits (records : List (String × CallRecord))
    (base_dir : String) (mode : Mode) (fs_exists : String → Bool)
    (name cd_id : String) (r1 r2 r3 : CallRecord) (d1 d2 d3 : String)
    (h1 : lookup_record records ("tophat_" ++ name) = some r1)
    (h1d : r1.out_dir = some d1)
    (h2 : lookup_record records ("cufflinks_" ++ name) = some r2)
    (h2d : r2.out_dir = some d2)
    (h3 : lookup_record records (str_replace cd_id "cuffdiff" "cuffmerge") = some r3)
    (h3d : r3.out_dir = some d3) :
    cufflinks_get_bam_path records base_dir mode fs_exists name
      = PathResult.viaRecord (rstripSlash d1 ++ "/" ++ "accepted_hits.bam")
    ∧ cuffmerge_get_cuffGTF_path records base_dir mode fs_exists name
      = PathResult.viaRecord (rstripSlash d2 ++ "/" ++ "transcripts.gtf")
    ∧ cuffdiff_get_cuffmerge_gtf records base_dir mode fs_exists cd_id
      = PathResult.viaRecord (rstripSlash d3 ++ "/" ++ "merged.gtf") := by
  refine ⟨?_, ?_, ?_⟩
  · simp [cufflinks_get_bam_path, get_upstream_path, h1, h1d]
  · simp [cuffmerge_get_cuffGTF_path, get_upstream_path, h2, h2d]
  · simp [cuffdiff_get_cuffmerge_gtf, get_upstream_path, h3, h3d]

/-- The record store used by the C3 witness: one completed record for
each upstream stage of condition Aa0 and of group Aa0.Bb0. -/
def C3recs : List (String × CallRecord) :=
  [("tophat_Aa0", ⟨some "/b/tophat_Aa0/"⟩),
   ("cufflinks_Aa0", ⟨some "/b/cufflinks_Aa0"⟩),
   ("cuffmerge_Aa0.Bb0", ⟨some "/b/cuffmerge_Aa0.Bb0"⟩)]

/-- Witness for C3 at a concrete store: all three downstream getters read
the registered output directories and never fall back to the disk. -/
theorem C3_witness :
    lookup_record C3recs "tophat_Aa0" = some ⟨some "/b/tophat_Aa0/"⟩
    ∧ lookup_record C3recs "cufflinks_Aa0" = some ⟨some "/b/cufflinks_Aa0"⟩
    ∧ lookup_record C3recs (str_replace "cuffdiff_Aa0.Bb0" "cuffdiff" "cuffmerge")
        = some ⟨some "/b/cuffmerge_Aa0.Bb0"⟩
    ∧ cufflinks_get_bam_path C3recs "/b" Mode.analyze (fun _ => false) "Aa0"
        = PathResult.viaRecord "/b/tophat_Aa0/accepted_hits.bam"
    ∧ cuffmerge_get_cuffGTF_path C3recs "/b" Mode.analyze (fun _ => false) "Aa0"
        = PathResult.viaRecord "/b/cufflinks_Aa0/transcripts.gtf"
    ∧ cuffdiff_get_cuffmerge_gtf C3recs "/b" Mode.analyze (fun _ => false) "cuffdiff_Aa0.Bb0"
        = PathResult.viaRecord "/b/cuffmerge_Aa0.Bb0/merged.gtf" :=
  ⟨by decide, by decide, by decide,
   ((C3_record_lookup_short_circuits C3recs "/b" Mode.analyze (fun _ => false)
      "Aa0" "cuffdiff_Aa0.Bb0" ⟨some "/b/tophat_Aa0/"⟩ ⟨some "/b/cufflinks_Aa0"⟩
      ⟨some "/b/cuffmerge_Aa0.Bb0"⟩ "/b/tophat_Aa0/" "/b/cufflinks_Aa0"
      "/b/cuffmerge_Aa0.Bb0" (by decide) rfl (by decide) rfl (by decide) rfl).1).trans
     (by decide),
   ((C3_record_lookup_short_circuits C3recs "/b" Mode.analyze (fun _ => false)
      "Aa0" "cuffdiff_Aa0.Bb0" ⟨some "/b/tophat_Aa0/"⟩ ⟨some "/b/cufflinks_Aa0"⟩
      ⟨some "/b/cuffmerge_Aa0.Bb0"⟩ "/b/tophat_Aa0/" "/b/cufflinks_Aa0"
      "/b/cuffmerge_Aa0.Bb0" (by decide) rfl (by decide) rfl (by decide) rfl).2.1).trans
     (by decide),
   ((C3_record_lookup_short_circuits C3recs "/b" Mode.analyze (fun _ => false)
      "Aa0" "cuffdiff_Aa0.Bb0" ⟨some "/b/tophat_Aa0/"⟩ ⟨some "/b/cufflinks_Aa0"⟩
      ⟨some "/b/cuffmerge_Aa0.Bb0"⟩ "/b/tophat_Aa0/" "/b/cufflinks_Aa0"
      "/b/cuffmerge_Aa0.Bb0" (by decide) rfl (by decide) rfl (by decide) rfl).2.2).trans
     (by decide)⟩

/-- Claim C5: when the upstream record lookup fails and the conventionally
reconstructed path does not exist on disk, analyze mode fails with a
MissingArgumentError whose message contains the expected path, while the
two tolerant modes raise nothing and keep the reconstructed, nonexistent
path as the argument. Stated for the two cited getters, those of
CufflinksCall and CuffdiffCall. -/
theorem C5_fallback_missing_artifact (records : List (String × CallRecord))
    (base_dir name : String) (fs_exists : String → Bool) (mode : Mode)
    (hlk : (lookup_record records ("tophat_" ++ name)).bind CallRecord.out_dir = none)
    (hfs : fs_exists (rstripSlash base_dir ++ "/" ++ ("tophat_" ++ name) ++ "/"
            ++ "accepted_hits.bam") = false) :
    (cufflinks_get_bam_path records base_dir Mode.analyze fs_exists name
      = PathResult.missingError (missing_msg "accepted_hits.bam"
          (rstripSlash base_dir ++ "/" ++ ("tophat_" ++ name) ++ "/" ++ "accepted_hits.bam")))
    ∧ (cuffdiff_get_bam_path records base_dir Mode.analyze fs_exists name
      = PathResult.missingError (missing_msg "accepted_hits.bam"
          (rstripSlash base_dir ++ "/" ++ ("tophat_" ++ name) ++ "/" ++ "accepted_hits.bam")))
    ∧ (∃ pre, missing_msg "accepted_hits.bam"
          (rstripSlash base_dir ++ "/" ++ ("tophat_" ++ name) ++ "/" ++ "accepted_hits.bam")
        = pre ++ (rstripSlash base_dir ++ "/" ++ ("tophat_" ++ name) ++ "/"
            ++ "accepted_hits.bam"))
    ∧ (mode ≠ Mode.analyze →
        cufflinks_get_bam_path records base_dir mode fs_exists name
          = PathResult.viaGuess (rstripSlash base_dir ++ "/" ++ ("tophat_" ++ name)
              ++ "/" ++ "accepted_hits.bam")
        ∧ cuffdiff_get_bam_path records base_dir mode fs_exists name
          = PathResult.viaGuess (rstripSlash base_dir ++ "/" ++ ("tophat_" ++ name)
              ++ "/" ++ "accepted_hits.bam")) := by
  refine ⟨?_, ?_, ?_, ?_⟩
  · simp [cufflinks_get_bam_path, get_upstream_path, hlk, hfs]
  · simp [cuffdiff_get_bam_path, get_upstream_path, hlk, hfs]
  · exact ⟨"I could not find an appropriate " ++ "accepted_hits.bam"
      ++ " file. Failed to find: ", by simp [missing_msg, String.append_assoc]⟩
  · intro hm
    constructor
    · simp [cufflinks_get_bam_path, get_upstream_path, hlk, hfs, hm]
    · simp [cuffdiff_get_bam_path, get_upstream_path, hlk, hfs, hm]

/-- Witness for C5: empty store, absent file, condition Aa0 under base
directory /b; analyze mode fails naming the expected path, dry-run mode
keeps the reconstructed path. -/
theorem C5_witness :
    (lookup_record [] "tophat_Aa0").bind CallRecord.out_dir = none
    ∧ cufflinks_get_bam_path [] "/b" Mode.analyze (fun _ => false) "Aa0"
        = PathResult.missingError
            "I could not find an appropriate accepted_hits.bam file. Failed to find: /b/tophat_Aa0/accepted_hits.bam"
    ∧ cufflinks_get_bam_path [] "/b" Mode.dry_run (fun _ => false) "Aa0"
        = PathResult.viaGuess "/b/tophat_Aa0/accepted_hits.bam" :=
  ⟨by decide,
   ((C5_fallback_missing_artifact [] "/b" "Aa0" (fun _ => false) Mode.dry_run
      (by decide) rfl).1).trans (by decide),
   (((C5_fallback_missing_artifact [] "/b" "Aa0" (fun _ => false) Mode.dry_run
      (by decide) rfl).2.2.2 (by decide)).1).trans (by decide)⟩

/-- The distinct elements of a list, as collected by Python set(...).
Python renders and pops sets in hash order; only the membership and the
cardinality of the set are observable in the source's control flow, so
the collection order chosen here is immaterial. -/
def distinct_values : List String → List String
  | [] => []
  | v :: rest =>
    let d := distinct_values rest
    if v ∈ d then d else v :: d

/-- A configuration-disagreement failure
(errors.InvalidFileFormatError): the formatted message up to the
rendering of the disagreeing set, and the distinct disagreeing values
(whose textual ordering inside the message is Python-hash-dependent and
therefore abstracted). -/
structure DisagreementError where
  message : String
  values : List String
deriving DecidableEq

/-- The message text of the consensus checks, up to the rendered set
(for example calls.py lines 580-581). -/
def disagreement_msg (group_id optname : String) : String :=
  "CHECK YAML CONFIG FILE: Conditions in group " ++ group_id
    ++ " do not agree on which \"" ++ optname ++ "\" to use: "

/-- Models the group-consensus pattern of CuffmergeCall.get_gtf_anno
(calls.py lines 572-584), CuffmergeCall.get_genome (lines 586-598),
CuffdiffCall.get_genome (lines 718-730) and CuffdiffCall.get_mask_file
(lines 770-785): collect the values into a set; a singleton set pops its
element, anything else raises InvalidFileFormatError naming the group. -/
def consensus (group_id optname : String) (vs : List String) :
    Except DisagreementError String :=
  let s := distinct_values vs
  if s.length = 1 then Except.ok s.head!
  else Except.error ⟨disagreement_msg group_id optname, s⟩

/-- Models CuffmergeCall.get_gtf_anno (calls.py lines 572-584). -/
def cuffmerge_get_gtf_anno (option : PyVal) (group_id : String)
    (conditions : List Condition) : Except DisagreementError PyVal :=
  if option = fromConditions then
    (consensus group_id "ref-gtf" (conditions.map Condition.gtf_anno)).map PyVal.vStr
  else Except.ok option

/-- Models CuffdiffCall.get_mask_file (calls.py lines 770-785); the
option argument is none when the YAML lacks the mask-file key (the
KeyError branch returns False). The source's message names the option
as ref-sequence here, copied from get_genome. -/
def cuffdiff_get_mask_file (option : Option PyVal) (group_id : String)
    (conditions : List Condition) : Except DisagreementError PyVal :=
  match option with
  | none => Except.ok (PyVal.vBool false)
  | some opt =>
    if opt = fromConditions then
      (consensus group_id "ref-sequence" (conditions.map Condition.mask_file)).map PyVal.vStr
    else Except.ok opt

lemma mem_distinct_values {x : String} {vs : List String} (h : x ∈ vs) :
    x ∈ distinct_values vs := by
  induction vs with
  | nil => cases h
  | cons a rest ih =>
    rcases List.mem_cons.mp h with rfl | hrest
    · by_cases ha : x ∈ distinct_values rest
      · simp [distinct_values, ha]
      · simp [distinct_values, ha]
    · by_cases ha : a ∈ distinct_values rest
      · simpa [distinct_values, ha] using ih hrest
      · simp [distinct_values, ha, ih hrest]

lemma distinct_values_all_eq {v : String} {vs : List String}
    (hne : vs ≠ []) (hall : ∀ x ∈ vs, x = v) : distinct_values vs = [v] := by
  induction vs with
  | nil => exact absurd rfl hne
  | cons a rest ih =>
    have ha : a = v := hall a (List.mem_cons_self a rest)
    cases rest with
    | nil => simp [distinct_values, ha]
    | cons b tail =>
      have hrest : distinct_values (b :: tail) = [v] := by
        refine ih (by simp) ?_
        intro x hx
        exact hall x (List.mem_cons_of_mem a hx)
      have hstep : distinct_values (a :: b :: tail)
          = if a ∈ distinct_values (b :: tail) then distinct_values (b :: tail)
            else a :: distinct_values (b :: tail) := rfl
      rw [hstep, hrest, ha]
      simp

lemma consensus_ok {v : String} {vs : List String} (gid opt : String)
    (hne : vs ≠ []) (hall : ∀ x ∈ vs, x = v) :
    consensus gid opt vs = Except.ok v := by
  simp [consensus, distinct_values_all_eq hne hall]

lemma consensus_error {a b : String} {vs : List String} (gid opt : String)
    (ha : a ∈ vs) (hb : b ∈ vs) (hab : a ≠ b) :
    consensus gid opt vs = Except.error ⟨disagreement_msg gid opt, distinct_values vs⟩ := by
  have hlen : (distinct_values vs).length ≠ 1 := by
    intro hone
    obtain ⟨w, hw⟩ := List.length_eq_one.mp hone
    have ha' : a = w := by
      have := mem_distinct_values ha
      rw [hw] at this
      simpa using this
    have hb' : b = w := by
      have := mem_distinct_values hb
      rw [hw] at this
      simpa using this
    exact hab (ha'.trans hb'.symm)
  simp [consensus, hlen]

lemma disagreement_msg_names_group (gid opt : String) :
    ∃ p q, disagreement_msg gid opt = p ++ gid ++ q := by
  refine ⟨"CHECK YAML CONFIG FILE: Conditions in group ",
    " do not agree on which \"" ++ opt ++ "\" to use: ", ?_⟩
  simp [disagreement_msg, String.append_assoc]

/-- Claim C4: for the group-scoped consensus options, a dynamic marker
with disagreeing values across the group's conditions makes construction
fail with a configuration-disagreement error whose message names the
group, while agreement resolves to the single agreed value. Stated for
the two cited getters: the cuffmerge reference annotation and the
cuffdiff mask file. -/
theorem C4_group_consensus (gid : String) (conds : List Condition) (v : String) :
    ((∃ c1 ∈ conds, ∃ c2 ∈ conds, c1.gtf_anno ≠ c2.gtf_anno) →
      ∃ e, cuffmerge_get_gtf_anno fromConditions gid conds = Except.error e
        ∧ ∃ p q, e.message = p ++ gid ++ q)
    ∧ (conds ≠ [] → (∀ c ∈ conds, c.gtf_anno = v) →
      cuffmerge_get_gtf_anno fromConditions gid conds = Except.ok (PyVal.vStr v))
    ∧ ((∃ c1 ∈ conds, ∃ c2 ∈ conds, c1.mask_file ≠ c2.mask_file) →
      ∃ e, cuffdiff_get_mask_file (some fromConditions) gid conds = Except.error e
        ∧ ∃ p q, e.message = p ++ gid ++ q)
    ∧ (conds ≠ [] → (∀ c ∈ conds, c.mask_file = v) →
      cuffdiff_get_mask_file (some fromConditions) gid conds = Except.ok (PyVal.vStr v)) := by
  refine ⟨?_, ?_, ?_, ?_⟩
  · rintro ⟨c1, hc1, c2, hc2, hne⟩
    refine ⟨⟨disagreement_msg gid "ref-gtf",
        distinct_values (conds.map Condition.gtf_anno)⟩, ?_, ?_⟩
    · rw [cuffmerge_get_gtf_anno, if_pos rfl,
        consensus_error gid "ref-gtf" (List.mem_map_of_mem Condition.gtf_anno hc1)
          (List.mem_map_of_mem Condition.gtf_anno hc2) hne]
      rfl
    · exact disagreement_msg_names_group gid "ref-gtf"
  · intro hne hall
    rw [cuffmerge_get_gtf_anno, if_pos rfl,
      consensus_ok gid "ref-gtf" (by simpa using hne)
        (by
          intro x hx
          obtain ⟨c, hc, rfl⟩ := List.mem_map.mp hx
          exact hall c hc)]
    rfl
  · rintro ⟨c1, hc1, c2, hc2, hne⟩
    refine ⟨⟨disagreement_msg gid "ref-sequence",
        distinct_values (conds.map Condition.mask_file)⟩, ?_, ?_⟩
    · rw [cuffdiff_get_mask_file, if_pos rfl,
        consensus_error gid "ref-sequence" (List.mem_map_of_mem Condition.mask_file hc1)
          (List.mem_map_of_mem Condition.mask_file hc2) hne]
      rfl
    · exact disagreement_msg_names_group gid "ref-sequence"
  · intro hne hall
    rw [cuffdiff_get_mask_file, if_pos rfl,
      consensus_ok gid "ref-sequence" (by simpa using hne)
        (by
          intro x hx
          obtain ⟨c, hc, rfl⟩ := List.mem_map.mp hx
          exact hall c hc)]
    rfl

/-- First condition of the C4 witness group. -/
def C4condA : Condition :=
  ⟨"Aa0", ["a_1.fq"], ["a_2.fq"], "/ref/one.gtf", "/ref/genome.fa", "/ref/mask.gtf", "idxA"⟩

/-- Second condition of the C4 witness group: same mask file, different
reference annotation. -/
def C4condB : Condition :=
  ⟨"Bb0", ["b_1.fq"], ["b_2.fq"], "/ref/two.gtf", "/ref/genome.fa", "/ref/mask.gtf", "idxB"⟩

/-- Witness for C4: the group g1 disagrees on the reference annotation,
so cuffmerge construction fails with an error naming g1, and agrees on
the mask file, so cuffdiff resolves it to the agreed value. -/
theorem C4_witness :
    (∃ e, cuffmerge_get_gtf_anno fromConditions "g1" [C4condA, C4condB] = Except.error e
      ∧ ∃ p q, e.message = p ++ "g1" ++ q)
    ∧ cuffdiff_get_mask_file (some fromConditions) "g1" [C4condA, C4condB]
        = Except.ok (PyVal.vStr "/ref/mask.gtf") :=
  ⟨(C4_group_consensus "g1" [C4condA, C4condB] "/ref/mask.gtf").1
      ⟨C4condA, by simp, C4condB, by simp, by decide⟩,
   (C4_group_consensus "g1" [C4condA, C4condB] "/ref/mask.gtf").2.2.2
      (by simp) (by decide)⟩

/-- Python s.split(slash): split at every slash, keeping empty pieces. -/
def splitOnSlash : List Char → List String
  | [] => [""]
  | c :: rest =>
    match splitOnSlash rest with
    | [] => []
    | t :: ts =>
      if c = '/' then "" :: t :: ts
      else String.mk (c :: t.data) :: ts

/-- Models BaseCall._flag_out_dir (calls.py lines 69-76): split the
absolute output path on slashes, drop the leading empty piece, and
rebuild the path with FAILED. prefixed to the last component.
os.path.abspath is the identity on the already-absolute, normalized
output paths this program builds, and is modelled so. -/
def flag_out_dir (out_dir : String) : String :=
  let orig_path_tokens := (splitOnSlash out_dir.data).drop 1
  "/" ++ String.intercalate "/" orig_path_tokens.dropLast ++ "/FAILED."
    ++ (orig_path_tokens.getLast?.getD "")

/-- The exception kinds distinguished by BaseCall.execute:
errors.SystemCallError (raised by runExternalApp on abnormal exit),
KeyboardInterrupt, errors.MissingArgumentError, and a stand-in for any
other unclassified exception class. -/
inductive PyExc where
  | systemCallError
  | keyboardInterrupt
  | missingArgumentError
  | otherError
deriving DecidableEq

/-- Whether the exception class is a subclass of Python 2's Exception,
which is what the except clause at calls.py line 292 catches. Since
Python 2.5, KeyboardInterrupt derives from BaseException directly and is
NOT an Exception subclass; the blacktie package targets Python 2.6/2.7
(print statements, dict.keys() returning a list). -/
def PyExc.isException : PyExc → Bool
  | PyExc.keyboardInterrupt => false
  | _ => true

/-- What BaseCall.execute's control flow amounts to: the try body ran to
completion; a caught failure was notified and the method returned
normally (MOVING ON); a caught failure was notified and re-raised
(EXITING); an exception not caught by except Exception propagated out
untouched; the dry-run print; or the qsub script build. -/
inductive RunResult where
  | completed
  | handled_moving_on : PyExc → RunResult
  | reraised : PyExc → RunResult
  | uncaught : PyExc → RunResult
  | printed : String → RunResult
  | qsub_built
deriving DecidableEq

/-- The observable outcome of BaseCall.execute: its control-flow result,
the output directory afterwards (renamed only by the caught-failure
handler), and the subject of the failure notification email if one was
sent. -/
structure ExecOutcome where
  result : RunResult
  out_dir : String
  email_subject : Option String
deriving DecidableEq

/-- The failure notification subjects built at calls.py lines 305-311. -/
def sitrep_failure_subject (hostname run_id kind_phrase call_id verdict : String) :
    String :=
  "[SITREP from " ++ hostname ++ "] Run " ++ run_id ++ " experienced "
    ++ kind_phrase ++ " in call " ++ call_id ++ ". " ++ verdict

/-- Models BaseCall.execute (calls.py lines 276-323). run_exc is the
first exception raised inside the try body, if any (runExternalApp
raises SystemCallError on abnormal exit; a user interrupt raises
KeyboardInterrupt). Only an Exception subclass reaches the handler,
which flags the output directory, emails a SITREP, and either returns
normally (SystemCallError, and the dead KeyboardInterrupt branch) or
re-raises. -/
def execute (mode : Mode) (cmd_string out_dir hostname run_id call_id : String)
    (run_exc : Option PyExc) : ExecOutcome :=
  match mode with
  | Mode.analyze =>
    match run_exc with
    | none => ⟨RunResult.completed, out_dir, none⟩
    | some exc =>
      if PyExc.isException exc then
        let flagged := flag_out_dir out_dir
        if exc = PyExc.systemCallError then
          ⟨RunResult.handled_moving_on exc, flagged,
            some (sitrep_failure_subject hostname run_id "SystemCallError"
              call_id "MOVING ON.")⟩
        else if exc = PyExc.keyboardInterrupt then
          ⟨RunResult.handled_moving_on exc, flagged,
            some (sitrep_failure_subject hostname run_id "KeyboardInterrupt"
              call_id "MOVING ON.")⟩
        else
          ⟨RunResult.reraised exc, flagged,
            some (sitrep_failure_subject hostname run_id "unhandled exception"
              call_id "EXITING.")⟩
      else
        ⟨RunResult.uncaught exc, out_dir, none⟩
  | Mode.dry_run => ⟨RunResult.printed (cmd_string ++ "\n"), out_dir, none⟩
  | Mode.qsub_script => ⟨RunResult.qsub_built, out_dir, none⟩

/-- Claim C1 (code bug): a KeyboardInterrupt raised while executing a
stage call in normal-execution mode is NOT caught by the except Exception
clause, so no notification is sent, the output directory is not flagged,
and the interrupt propagates out of execute, terminating the run; the
isinstance(exc, KeyboardInterrupt) MOVING ON branch at calls.py lines
307-309 is unreachable. -/
theorem C1_interrupt_propagates :
    PyExc.isException PyExc.keyboardInterrupt = false
    ∧ execute Mode.analyze "tophat -o /b/tophat_Aa0" "/b/tophat_Aa0" "host" "run1"
        "tophat_Aa0" (some PyExc.keyboardInterrupt)
      = ⟨RunResult.uncaught PyExc.keyboardInterrupt, "/b/tophat_Aa0", none⟩
    ∧ (execute Mode.analyze "tophat -o /b/tophat_Aa0" "/b/tophat_Aa0" "host" "run1"
        "tophat_Aa0" (some PyExc.keyboardInterrupt)).result
      ≠ RunResult.handled_moving_on PyExc.keyboardInterrupt := by
  refine ⟨rfl, rfl, by decide⟩

/-- Claim C6: any failure caught during the normal-execution sequence
renames the output directory in place to FAILED. plus its original last
component; a recognized SystemCallError is then notified MOVING ON and
execute returns normally, while any other caught (hence unclassified)
exception is notified EXITING and re-raised. -/
theorem C6_failure_flags_and_classifies (cmd out_dir host rid cid : String)
    (exc : PyExc) (parts : List String) (dirname : String)
    (hcaught : PyExc.isException exc = true)
    (hsplit : (splitOnSlash out_dir.data).drop 1 = parts ++ [dirname]) :
    ((execute Mode.analyze cmd out_dir host rid cid (some exc)).out_dir
      = "/" ++ String.intercalate "/" parts ++ "/FAILED." ++ dirname)
    ∧ (exc = PyExc.systemCallError →
        (execute Mode.analyze cmd out_dir host rid cid (some exc)).result
          = RunResult.handled_moving_on exc
        ∧ (execute Mode.analyze cmd out_dir host rid cid (some exc)).email_subject
          = some (sitrep_failure_subject host rid "SystemCallError" cid "MOVING ON."))
    ∧ (exc ≠ PyExc.systemCallError → exc ≠ PyExc.keyboardInterrupt →
        (execute Mode.analyze cmd out_dir host rid cid (some exc)).result
          = RunResult.reraised exc
        ∧ (execute Mode.analyze cmd out_dir host rid cid (some exc)).email_subject
          = some (sitrep_failure_subject host rid "unhandled exception" cid "EXITING.")) := by
  have hflag : flag_out_dir out_dir
      = "/" ++ String.intercalate "/" parts ++ "/FAILED." ++ dirname := by
    rw [flag_out_dir, hsplit]
    simp [List.dropLast_concat, List.getLast?_concat]
  refine ⟨?_, ?_, ?_⟩
  · by_cases hs : exc = PyExc.systemCallError
    · simp [execute, PyExc.isException, hcaught, hs, hflag]
    · by_cases hk : exc = PyExc.keyboardInterrupt
      · rw [hk] at hcaught
        cases hcaught
      · simp [execute, hcaught, hs, hk, hflag]
  · intro hs
    simp [execute, PyExc.isException, hcaught, hs, hflag]
  · intro hs hk
    simp [execute, hcaught, hs, hk]

/-- Witness for C6 at concrete inputs: an external-program failure in
normal execution renames /b/tophat_Aa0 to /b/FAILED.tophat_Aa0, notifies
MOVING ON, and returns normally; an unclassified error is re-raised after
an EXITING notification. -/
theorem C6_witness :
    PyExc.isException PyExc.systemCallError = true
    ∧ (splitOnSlash (String.data "/b/tophat_Aa0")).drop 1 = ["b"] ++ ["tophat_Aa0"]
    ∧ (execute Mode.analyze "cmd" "/b/tophat_Aa0" "h" "r" "tophat_Aa0"
        (some PyExc.systemCallError)).out_dir = "/b/FAILED.tophat_Aa0"
    ∧ (execute Mode.analyze "cmd" "/b/tophat_Aa0" "h" "r" "tophat_Aa0"
        (some PyExc.systemCallError)).result
      = RunResult.handled_moving_on PyExc.systemCallError
    ∧ (execute Mode.analyze "cmd" "/b/tophat_Aa0" "h" "r" "tophat_Aa0"
        (some PyExc.otherError)).result = RunResult.reraised PyExc.otherError :=
  ⟨rfl, by decide,
   ((C6_failure_flags_and_classifies "cmd" "/b/tophat_Aa0" "h" "r" "tophat_Aa0"
      PyExc.systemCallError ["b"] "tophat_Aa0" rfl (by decide)).1).trans (by decide),
   ((C6_failure_flags_and_classifies "cmd" "/b/tophat_Aa0" "h" "r" "tophat_Aa0"
      PyExc.systemCallError ["b"] "tophat_Aa0" rfl (by decide)).2.1 rfl).1,
   ((C6_failure_flags_and_classifies "cmd" "/b/tophat_Aa0" "h" "r" "tophat_Aa0"
      PyExc.otherError ["b"] "tophat_Aa0" rfl (by decide)).2.2 (by decide) (by decide)).1⟩

/-- Whether pat occurs as a contiguous sublist of s (Python in, for
string containment). -/
def containsSub (pat : List Char) : List Char → Bool
  | [] => pat.isEmpty
  | c :: rest => pat.isPrefixOf (c :: rest) || containsSub pat rest

lemma str_replace_data (s pat rep : String) :
    (str_replace s pat rep).data = listReplaceAux pat.data rep.data 0 s.data := rfl

lemma listReplaceAux_skip (pat rep : List Char) (t : List Char) (s : List Char) :
    listReplaceAux pat rep t.length (t ++ s) = listReplaceAux pat rep 0 s := by
  induction t with
  | nil => rfl
  | cons c t' ih =>
    show listReplaceAux pat rep (Nat.succ t'.length) (c :: (t' ++ s))
      = listReplaceAux pat rep 0 s
    rw [listReplaceAux]
    exact ih

lemma isPrefixOf_append_self (l s : List Char) : l.isPrefixOf (l ++ s) = true := by
  induction l with
  | nil => simp [List.isPrefixOf]
  | cons c t ih => simp [List.isPrefixOf, ih]

lemma listReplaceAux_match (c : Char) (p' rep s : List Char) :
    listReplaceAux (c :: p') rep 0 ((c :: p') ++ s)
      = rep ++ listReplaceAux (c :: p') rep 0 s := by
  have hpre : (c :: p').isPrefixOf ((c :: p') ++ s) = true :=
    isPrefixOf_append_self _ _
  show listReplaceAux (c :: p') rep 0 (c :: (p' ++ s))
    = rep ++ listReplaceAux (c :: p') rep 0 s
  rw [listReplaceAux]
  simp only [List.cons_append] at hpre
  rw [hpre]
  simp only [List.isEmpty_cons, Bool.not_false, Bool.and_true, if_true]
  have hlen : (c :: p').length - 1 = p'.length := by simp
  rw [hlen, listReplaceAux_skip]

lemma listReplaceAux_no_occurrence (pat rep : List Char) (s : List Char)
    (h : containsSub pat s = false) : listReplaceAux pat rep 0 s = s := by
  induction s with
  | nil => rfl
  | cons c rest ih =>
    rw [containsSub] at h
    have hp : pat.isPrefixOf (c :: rest) = false := by
      cases hpp : pat.isPrefixOf (c :: rest)
      · rfl
      · rw [hpp] at h
        simp at h
    have hr : containsSub pat rest = false := by
      cases hrr : containsSub pat rest
      · rfl
      · rw [hrr] at h
        simp at h
    rw [listReplaceAux, hp]
    simp only [Bool.false_and, if_neg Bool.false_ne_true]
    rw [ih hr]

/-- Modelled from the spec: a completed stage call registers itself in
the Call Record Store keyed by its own call identifier (the registration
is performed by the run orchestrator, outside calls.py), so the cuffmerge
call for the group with these condition names is keyed by its
set_call_id_group identifier. -/
def cuffmerge_registered_id (condition_names : List String) : String :=
  set_call_id_group "cuffmerge" condition_names

/-- Models the identifier reversal at calls.py line 798:
self.call_id.replace(cuffdiff, cuffmerge). -/
def cuffmerge_id_of_cuffdiff_id (call_id : String) : String :=
  str_replace call_id "cuffdiff" "cuffmerge"

/-- Claim C9 (corrected), counterexample to the original wording: for a
group containing a condition named cuffdiff, the replacement rewrites the
condition-name part of the identifier too, so the reversed identifier
differs from the one the cuffmerge stage for that group is keyed under. -/
theorem C9_counterexample :
    cuffmerge_id_of_cuffdiff_id (set_call_id_group "cuffdiff" ["cuffdiff"])
      = "cuffmerge_cuffmerge"
    ∧ cuffmerge_registered_id ["cuffdiff"] = "cuffmerge_cuffdiff"
    ∧ ("cuffmerge_cuffmerge" : String) ≠ "cuffmerge_cuffdiff" := by
  refine ⟨by decide, by decide, by decide⟩

/-- Claim C9 (amended): for any group whose dot-joined condition names do
not themselves contain cuffdiff as a substring (prefixed by the joining
underscore to cover every occurrence outside the stage-name position),
replacing cuffdiff with cuffmerge in the comparison call's identifier
yields exactly the identifier under which the merge stage for the same
group is keyed. -/
theorem C9_roundtrip (names : List String)
    (hclean : containsSub (String.data "cuffdiff")
        (String.data ("_" ++ String.intercalate "." names)) = false) :
    cuffmerge_id_of_cuffdiff_id (set_call_id_group "cuffdiff" names)
      = cuffmerge_registered_id names := by
  apply String.ext
  rw [cuffmerge_id_of_cuffdiff_id, str_replace_data]
  have h1 : (set_call_id_group "cuffdiff" names).data
      = String.data "cuffdiff" ++ String.data ("_" ++ String.intercalate "." names) := by
    simp [set_call_id_group, String.data_append, List.append_assoc]
  rw [h1]
  have h2 : String.data "cuffdiff" = 'c' :: String.data "uffdiff" := rfl
  rw [h2, listReplaceAux_match, ← h2,
    listReplaceAux_no_occurrence _ _ _ hclean]
  simp [cuffmerge_registered_id, set_call_id_group, String.data_append,
    List.append_assoc]

/-- Witness for C9 on the group Aa0, Bb0: the reversal lands exactly on
the merge stage's identifier. -/
theorem C9_witness :
    containsSub (String.data "cuffdiff")
        (String.data ("_" ++ String.intercalate "." ["Aa0", "Bb0"])) = false
    ∧ cuffmerge_id_of_cuffdiff_id (set_call_id_group "cuffdiff" ["Aa0", "Bb0"])
        = cuffmerge_registered_id ["Aa0", "Bb0"]
    ∧ cuffmerge_id_of_cuffdiff_id (set_call_id_group "cuffdiff" ["Aa0", "Bb0"])
        = "cuffmerge_Aa0.Bb0" :=
  ⟨by decide, C9_roundtrip ["Aa0", "Bb0"] (by decide),
   (C9_roundtrip ["Aa0", "Bb0"] (by decide)).trans (by decide)⟩

/-- A filesystem write performed during call construction, in program
order. -/
inductive FsEffect where
  | mkdirp : String → FsEffect
  | writeFile : String → String → FsEffect
  | rmtree : String → FsEffect
deriving DecidableEq

/-- Whether a path is absolute, that is, starts with a slash. -/
def isAbsolute (p : String) : Bool :=
  match p.data with
  | [] => false
  | c :: _ => c = '/'

/-- os.path.abspath, modelled up to path normalization: an absolute path
is returned unchanged, a relative one is anchored at the working
directory. -/
def abspath (cwd p : String) : String :=
  if isAbsolute p then p else rstripSlash cwd ++ "/" ++ p

/-- Models CuffmergeCall.get_cufflinks_gtfs (calls.py lines 600-619):
with a dynamic assembly_list, create the output directory, write the
per-condition transcript paths one per line into assembly_list.txt under
it, remove the whole output directory again when in dry-run mode, and
return the manifest's absolute path; a literal option performs no
filesystem writes. The per-condition paths, resolved by
get_cuffGTF_path, are passed in. -/
def cuffmerge_get_cufflinks_gtfs (option : PyVal) (mode : Mode)
    (out_dir : String) (gtf_paths : List String) (cwd : String) :
    List FsEffect × String :=
  if option = fromConditions then
    let manifest := rstripSlash out_dir ++ "/assembly_list.txt"
    let effects := [FsEffect.mkdirp out_dir,
                    FsEffect.writeFile manifest (String.intercalate "\n" gtf_paths)]
    let effects :=
      if mode = Mode.dry_run then effects ++ [FsEffect.rmtree out_dir] else effects
    (effects, abspath cwd manifest)
  else ([], PyVal.str option)

/-- Claim C10: in dry-run mode with a dynamic assembly list, construction
creates the output directory, writes the manifest, then removes the
entire output directory (the rmtree targets the directory, not just the
manifest), while the returned positional argument is still the deleted
manifest's absolute path; in the other two modes the directory and
manifest are left in place and the same path is returned. -/
theorem C10_dry_run_removes_out_dir (mode : Mode) (out_dir cwd : String)
    (gtf_paths : List String)
    (habs : isAbsolute (rstripSlash out_dir ++ "/assembly_list.txt") = true) :
    (cuffmerge_get_cufflinks_gtfs fromConditions Mode.dry_run out_dir gtf_paths cwd
      = ([FsEffect.mkdirp out_dir,
          FsEffect.writeFile (rstripSlash out_dir ++ "/assembly_list.txt")
            (String.intercalate "\n" gtf_paths),
          FsEffect.rmtree out_dir],
         rstripSlash out_dir ++ "/assembly_list.txt"))
    ∧ (mode ≠ Mode.dry_run →
        cuffmerge_get_cufflinks_gtfs fromConditions mode out_dir gtf_paths cwd
          = ([FsEffect.mkdirp out_dir,
              FsEffect.writeFile (rstripSlash out_dir ++ "/assembly_list.txt")
                (String.intercalate "\n" gtf_paths)],
             rstripSlash out_dir ++ "/assembly_list.txt")) := by
  constructor
  · simp [cuffmerge_get_cufflinks_gtfs, abspath, habs]
  · intro hm
    simp [cuffmerge_get_cufflinks_gtfs, abspath, habs, hm]

/-- Witness for C10 at a concrete merge call: dry-run writes the two-line
manifest and then deletes the whole directory, analyze mode leaves both
in place. -/
theorem C10_witness :
    isAbsolute (rstripSlash "/b/cuffmerge_Aa0.Bb0" ++ "/assembly_list.txt") = true
    ∧ cuffmerge_get_cufflinks_gtfs fromConditions Mode.dry_run "/b/cuffmerge_Aa0.Bb0"
        ["/b/cufflinks_Aa0/transcripts.gtf", "/b/cufflinks_Bb0/transcripts.gtf"] "/cwd"
      = ([FsEffect.mkdirp "/b/cuffmerge_Aa0.Bb0",
          FsEffect.writeFile "/b/cuffmerge_Aa0.Bb0/assembly_list.txt"
            "/b/cufflinks_Aa0/transcripts.gtf\n/b/cufflinks_Bb0/transcripts.gtf",
          FsEffect.rmtree "/b/cuffmerge_Aa0.Bb0"],
         "/b/cuffmerge_Aa0.Bb0/assembly_list.txt")
    ∧ cuffmerge_get_cufflinks_gtfs fromConditions Mode.analyze "/b/cuffmerge_Aa0.Bb0"
        ["/b/cufflinks_Aa0/transcripts.gtf", "/b/cufflinks_Bb0/transcripts.gtf"] "/cwd"
      = ([FsEffect.mkdirp "/b/cuffmerge_Aa0.Bb0",
          FsEffect.writeFile "/b/cuffmerge_Aa0.Bb0/assembly_list.txt"
            "/b/cufflinks_Aa0/transcripts.gtf\n/b/cufflinks_Bb0/transcripts.gtf"],
         "/b/cuffmerge_Aa0.Bb0/assembly_list.txt") :=
  ⟨by decide,
   ((C10_dry_run_removes_out_dir Mode.analyze "/b/cuffmerge_Aa0.Bb0" "/cwd"
      ["/b/cufflinks_Aa0/transcripts.gtf", "/b/cufflinks_Bb0/transcripts.gtf"]
      (by decide)).1).trans (by decide),
   (((C10_dry_run_removes_out_dir Mode.analyze "/b/cuffmerge_Aa0.Bb0" "/cwd"
      ["/b/cufflinks_Aa0/transcripts.gtf", "/b/cufflinks_Bb0/transcripts.gtf"]
      (by decide)).2) (by decide)).trans (by decide)⟩

/-- Python dict key lookup in an insertion-ordered option map; none
models a KeyError or AttributeError. -/
def dict_lookup (d : List (String × PyVal)) (k : String) : Option PyVal :=
  (d.find? (fun kv => kv.1 = k)).map Prod.snd

/-- Python dict assignment d at k becomes v: replace the binding in
place, or append a new one. -/
def dict_set (d : List (String × PyVal)) (k : String) (v : PyVal) :
    List (String × PyVal) :=
  if (d.map Prod.fst).contains k then
    d.map (fun kv => if kv.1 = k then (k, v) else kv)
  else d ++ [(k, v)]

/-- Models BaseCall.init_opt_dict (calls.py lines 146-169): every YAML
option key starts at boolean False (defaultdict(bool)); each key other
than positional_args whose YAML value is not the dynamic sentinel is
then set to its literal YAML value. -/
def init_opt_dict (prog_yargs : List (String × PyVal)) : List (String × PyVal) :=
  prog_yargs.map (fun kv =>
    if kv.1 = "positional_args" then (kv.1, PyVal.vBool false)
    else if kv.2 = fromConditions then (kv.1, PyVal.vBool false)
    else kv)

/-- The run_options sub-tree of the configuration consulted by the call
classes. -/
structure RunOptions where
  base_dir : String
  bowtie_indexes_dir : String
deriving DecidableEq

/-- The tophat_options sub-tree of the configuration: the option map in
YAML order (including its positional_args key, which init_opt_dict
forces to False) and the three positional-argument entries. -/
structure TophatYargs where
  opts : List (String × PyVal)
  bowtie2_index : PyVal
  left_reads : PyVal
  right_reads : PyVal
deriving DecidableEq

/-- Models TophatCall.__init__ together with its getters (calls.py lines
332-408), yielding the resolved arg_str: set the call id, resolve the
output directory from the o option, resolve G from the condition's
annotation when dynamic, build and serialize the option map, then append
the bowtie index and the comma-joined read lists. none models the
AttributeError raised if tophat_options lacks the o or G key. -/
def tophat_arg_str (ro : RunOptions) (ty : TophatYargs) (cond : Condition) :
    Option String :=
  match dict_lookup ty.opts "o", dict_lookup ty.opts "G" with
  | some oOpt, some gOpt =>
    let call_id := set_call_id_single "tophat" cond.name
    let out_dir := get_out_dir oOpt ro.base_dir call_id
    let gtf := if gOpt = fromConditions then PyVal.vStr cond.gtf_anno else gOpt
    let opt_dict := dict_set (dict_set (init_opt_dict ty.opts) "o" out_dir) "G" gtf
    let options_list := construct_options_list opt_dict
    let bowtie_index :=
      if ty.bowtie2_index = fromConditions then
        rstripSlash ro.bowtie_indexes_dir ++ "/" ++ cond.bowtie2_index
      else PyVal.str ty.bowtie2_index
    let lt_reads :=
      if ty.left_reads = fromConditions then String.intercalate "," cond.left_reads
      else PyVal.str ty.left_reads
    let rt_reads :=
      if ty.right_reads = fromConditions then String.intercalate "," cond.right_reads
      else PyVal.str ty.right_reads
    some (build_arg_str options_list [bowtie_index, lt_reads, rt_reads])
  | _, _ => none

/-- The command string a tophat call hands to the executor: the program
name joined to arg_str (calls.py line 282). -/
def tophat_cmd_string (ro : RunOptions) (ty : TophatYargs) (cond : Condition) :
    Option String :=
  (tophat_arg_str ro ty cond).map (fun a => "tophat " ++ a)

lemma append_ne_of_longer (a b t : String) (h : t.length < b.length) :
    a ++ b ≠ t := by
  intro he
  have hl := congrArg String.length he
  rw [String.length_append] at hl
  omega

/-- Claim C8: for an alignment call on condition Aa0 whose output
directory, annotation, index and read lists are all dynamic, the
resolved command is tophat, then -o with the base directory joined to
tophat_Aa0, then -G with the condition's annotation, then the bowtie
index path under the configured indexes directory, then the comma-joined
left and right read lists, space-separated in that order. The
side condition that the annotation path is not the text True excludes
the serializer quirk documented with claim C2. -/
theorem C8_tophat_scenario (ro : RunOptions) (ty : TophatYargs) (cond : Condition)
    (pv : PyVal)
    (hopts : ty.opts = [("o", fromConditions), ("G", fromConditions),
        ("positional_args", pv)])
    (hbt : ty.bowtie2_index = fromConditions)
    (hlt : ty.left_reads = fromConditions)
    (hrt : ty.right_reads = fromConditions)
    (hname : cond.name = "Aa0")
    (hgtf : cond.gtf_anno ≠ "True") :
    tophat_cmd_string ro ty cond
      = some ("tophat " ++ String.intercalate " "
          ["-o", rstripSlash ro.base_dir ++ "/" ++ "tophat_Aa0",
           "-G", cond.gtf_anno,
           rstripSlash ro.bowtie_indexes_dir ++ "/" ++ cond.bowtie2_index,
           String.intercalate "," cond.left_reads,
           String.intercalate "," cond.right_reads]) := by
  have hcid : set_call_id_single "tophat" "Aa0" = "tophat_Aa0" := rfl
  have hod : rstripSlash ro.base_dir ++ "/" ++ "tophat_Aa0" ≠ "True" :=
    append_ne_of_longer _ _ _ (by decide)
  have hflago : ("-" : String) ++ "o" = "-o" := rfl
  have hflagG : ("-" : String) ++ "G" = "-G" := rfl
  have hlo : ("o" : String).length = 1 := rfl
  have hlG : ("G" : String).length = 1 := rfl
  simp [tophat_cmd_string, tophat_arg_str, dict_lookup, hopts, hbt, hlt, hrt, hname,
    hcid, init_opt_dict, dict_set, get_out_dir, construct_options_list, PyVal.isFalse,
    PyVal.str, build_arg_str, build_out_dir_path, fromConditions, hod, hgtf,
    hflago, hflagG, hlo, hlG]

/-- Concrete run options for the C8 witness. -/
def C8ro : RunOptions := ⟨"/my/base/", "/my/indexes"⟩

/-- Concrete tophat options for the C8 witness: output directory,
annotation and all positionals dynamic. -/
def C8ty : TophatYargs :=
  ⟨[("o", fromConditions), ("G", fromConditions),
    ("positional_args", PyVal.vStr "placeholder")],
   fromConditions, fromConditions, fromConditions⟩

/-- Concrete condition Aa0 for the C8 witness. -/
def C8cond : Condition :=
  ⟨"Aa0", ["Aa0_1a.fq", "Aa0_1b.fq"], ["Aa0_2a.fq", "Aa0_2b.fq"],
   "/ref/anno.gtf", "/ref/genome.fa", "/ref/mask.gtf", "bt2_index_Aa0"⟩

/-- Witness for C8: the fully dynamic alignment call on condition Aa0
resolves to the exact tophat command of the scenario. -/
theorem C8_witness :
    C8ty.opts = [("o", fromConditions), ("G", fromConditions),
        ("positional_args", PyVal.vStr "placeholder")]
    ∧ C8cond.name = "Aa0"
    ∧ C8cond.gtf_anno ≠ "True"
    ∧ tophat_cmd_string C8ro C8ty C8cond
      = some "tophat -o /my/base/tophat_Aa0 -G /ref/anno.gtf /my/indexes/bt2_index_Aa0 Aa0_1a.fq,Aa0_1b.fq Aa0_2a.fq,Aa0_2b.fq" :=
  ⟨rfl, rfl, by decide,
   (C8_tophat_scenario C8ro C8ty C8cond (PyVal.vStr "placeholder")
      rfl rfl rfl rfl rfl (by decide)).trans (by decide)⟩

end Blacktie
